import Mathlib

/-
  Verification of the DreamWeave authentication / session-resolution core.

  Shallow embedding of:
  - the `credentials` table and `verify_credentials_simple` SQL function
    (credentials setup script);
  - `getInitialSession`, `signInWithCredentials`, `signOut` from
    `src/app/contexts/AuthContext.tsx` (React state updates become explicit
    state records, localStorage becomes an explicit two-slot store, and the
    outcomes of external calls — supabase rpc / getSession / signOut — become
    explicit input parameters covering every case the code branches on);
  - `ProtectedRoute` from the protected-route component.

  Machine time is modelled as Unix-epoch seconds (`Nat`), matching the code's
  `Math.floor(Date.now() / 1000)`.
-/

namespace DreamWeave

/-- A row of the `credentials` table created by the setup script:
`id, username, email, password_hash, role, is_active` (timestamp bookkeeping
columns `created_at`/`updated_at`/`last_login` are not read by any verified
path and are omitted). -/
structure CredRecord where
  id : String
  username : String
  email : String
  password_hash : String
  role : String
  is_active : Bool
deriving Repr, DecidableEq

/-- The bcrypt hash literal inserted for the admin user by the setup script;
per the script's comment it is the bcrypt hash of "Wreke2re?es?". -/
def adminPasswordHash : String :=
  "$2b$12$LQv3c1yqBwcVsvDrjXA5a.VR8ZVq/8Z8.YtJ4XVHF7sF8KjX3Y7O6"

/-- The single credential record inserted by the setup script
(`INSERT INTO credentials ... VALUES ('admin', 'admin@dreamweave.local', <hash>, 'admin')`;
`is_active` defaults to TRUE, `id` is an opaque generated UUID). -/
def adminRecord : CredRecord :=
  { id := "00000000-0000-0000-0000-000000000001"
    username := "admin"
    email := "admin@dreamweave.local"
    password_hash := adminPasswordHash
    role := "admin"
    is_active := true }

/-- The deployed `credentials` table: exactly the one row the setup script inserts. -/
def credentialsTable : List CredRecord := [adminRecord]

/-- Result row shape of the credential-verification functions:
`TABLE(user_id UUID, username TEXT, email TEXT, role TEXT)`. -/
structure VerifiedUser where
  user_id : String
  username : String
  email : String
  role : String
deriving Repr, DecidableEq

/-- Bcrypt verification, modelled abstractly: the only hash value appearing in
the repository is `adminPasswordHash`, which the setup script documents as the
bcrypt hash of the password "Wreke2re?es?"; a password matches a stored hash
exactly when the hash is that literal and the password is that plaintext. -/
def bcryptMatches (password hash : String) : Bool :=
  hash == adminPasswordHash && password == "Wreke2re?es?"

/-- Embeds `verify_credentials_simple(input_username, input_password)`:
select the active row with the given username (`WHERE c.username = input_username
AND c.is_active = true`); if not found, return the empty table; otherwise return
the row's fields iff the literal check
`input_password = 'Wreke2re?es?' AND input_username = 'admin'` passes
(the stored `password_hash` is never consulted). The `last_login` UPDATE side
effect touches no column any verified path reads and is omitted. -/
def verify_credentials_simple (table : List CredRecord)
    (input_username input_password : String) : List VerifiedUser :=
  match table.find? (fun c => c.username == input_username && c.is_active) with
  | none => []
  | some r =>
      if input_password == "Wreke2re?es?" && input_username == "admin" then
        [{ user_id := r.id, username := r.username, email := r.email, role := r.role }]
      else []

/-- Predicate for the spec's phrase "(username, password) pair matching an
active credential record": some row of the table has that username, is active,
and its stored `password_hash` verifies the password (via `bcryptMatches`). -/
def matchesActiveRecord (table : List CredRecord) (u p : String) : Bool :=
  table.any (fun c => c.username == u && c.is_active && bcryptMatches p c.password_hash)

/-- `user_metadata` of the mock user built by `signInWithCredentials`. -/
structure UserMetadata where
  full_name : String
  role : String
deriving Repr, DecidableEq

/-- `app_metadata` of the mock user built by `signInWithCredentials`. -/
structure AppMetadata where
  provider : String
  role : String
deriving Repr, DecidableEq

/-- The `AuthUser` shape as populated by the code. Timestamps
(`created_at`, `updated_at`, `email_confirmed_at`, `last_sign_in_at`) are
Unix-epoch seconds here (the code stores wall-clock ISO strings of the same
instant). -/
structure AuthUser where
  id : String
  email : String
  created_at : Nat
  updated_at : Nat
  email_confirmed_at : Nat
  last_sign_in_at : Nat
  aud : String
  user_metadata : UserMetadata
  app_metadata : AppMetadata
deriving Repr, DecidableEq

/-- The `Session` shape as the code populates and reads it:
`access_token`, `refresh_token`, `expires_in`, `expires_at` (Unix-epoch
seconds; optional, since the validity check first tests its presence/truthiness),
`token_type`, `user`. -/
structure Session where
  access_token : String
  refresh_token : String
  expires_in : Nat
  expires_at : Option Nat
  token_type : String
  user : AuthUser
deriving Repr, DecidableEq

/-- The persisted localStorage slots: key `dreamweave_credentials_user` and key
`dreamweave_credentials_session` (absent = `none`). JSON serialization
round-trips exactly, so the slots hold the records themselves. -/
structure StoredState where
  credUser : Option AuthUser
  credSession : Option Session
deriving Repr, DecidableEq

/-- The Gate's in-memory React state: `user`, `session`, `loading`. -/
structure GateState where
  user : Option AuthUser
  session : Option Session
  loading : Bool
deriving Repr, DecidableEq

/-- Outcome of `supabase.auth.getSession()` as the code branches on it:
a successful reply carrying an optional live session, an error reply
(`error` non-null), or a thrown exception (caught by the surrounding catch). -/
inductive GetSessionResult where
  | ok : Option Session → GetSessionResult
  | err : GetSessionResult
  | thrown : GetSessionResult
deriving Repr, DecidableEq

/-- Result of one `getInitialSession` pass: the storage afterwards, the Gate
state afterwards, and whether the federated provider (`supabase.auth.getSession`)
was consulted during the pass. -/
structure InitResult where
  store : StoredState
  gate : GateState
  federatedChecked : Bool
deriving Repr, DecidableEq

/-- The persisted-session validity check on line 51:
`session.expires_at && session.expires_at > Math.floor(Date.now() / 1000)` —
`expires_at` must be present and truthy (nonzero) and strictly greater than now. -/
def sessionValid (now : Nat) (s : Session) : Bool :=
  match s.expires_at with
  | some e => (e != 0) && (now < e)
  | none => false

/-- The federated fall-through of `getInitialSession` (lines 63–80): call
`supabase.auth.getSession()`; on error or exception set user/session to null;
on success set session and user from the reply; `finally` sets loading false.
Storage is not touched on this path. -/
def checkFederated (store : StoredState) (fed : GetSessionResult) : InitResult :=
  match fed with
  | .ok s =>
      { store := store
        gate := { user := Option.map Session.user s, session := s, loading := false }
        federatedChecked := true }
  | .err =>
      { store := store
        gate := { user := none, session := none, loading := false }
        federatedChecked := true }
  | .thrown =>
      { store := store
        gate := { user := none, session := none, loading := false }
        federatedChecked := true }

/-- Embeds `getInitialSession` (AuthContext lines 39–81): read both persisted
slots; if both are present and the session passes `sessionValid`, set the Gate
state from them and return without consulting the federated provider; if both
are present but the session fails the check, remove both slots and fall through;
if either slot is absent, fall through with storage untouched. -/
def getInitialSession (now : Nat) (store : StoredState)
    (fed : GetSessionResult) : InitResult :=
  match store.credUser, store.credSession with
  | some u, some s =>
      if sessionValid now s then
        { store := store
          gate := { user := some u, session := some s, loading := false }
          federatedChecked := false }
      else
        checkFederated { credUser := none, credSession := none } fed
  | _, _ => checkFederated store fed

/-- Outcome of the `supabase.rpc('verify_credentials_simple', ...)` call as the
code branches on it: a successful reply carrying the returned row list, an
error reply (`error` non-null), or a thrown exception (caught by the
surrounding catch). -/
inductive RpcResult where
  | ok : List VerifiedUser → RpcResult
  | err : RpcResult
  | thrown : RpcResult
deriving Repr, DecidableEq

/-- Result of one `signInWithCredentials` call: the storage afterwards, the
Gate state afterwards, and the returned `error` field. -/
structure SignInResult where
  store : StoredState
  gate : GateState
  error : Option String
deriving Repr, DecidableEq

/-- The mock user object built on success (lines 136–154): id and email from
the verified row, all timestamps set to the present call's instant,
`aud: 'authenticated'`, `user_metadata` carrying the row's username and role,
`app_metadata` carrying `provider: 'credentials'` and the row's role. -/
def mkMockUser (now : Nat) (info : VerifiedUser) : AuthUser :=
  { id := info.user_id
    email := info.email
    created_at := now
    updated_at := now
    email_confirmed_at := now
    last_sign_in_at := now
    aud := "authenticated"
    user_metadata := { full_name := info.username, role := info.role }
    app_metadata := { provider := "credentials", role := info.role } }

/-- The mock session built on success (lines 157–164): placeholder tokens,
`expires_in: 3600`, `expires_at = Math.floor(Date.now() / 1000) + 3600`,
`token_type: 'bearer'`, owning the mock user. -/
def mkMockSession (now : Nat) (u : AuthUser) : Session :=
  { access_token := "mock-access-token"
    refresh_token := "mock-refresh-token"
    expires_in := 3600
    expires_at := some (now + 3600)
    token_type := "bearer"
    user := u }

/-- Embeds `signInWithCredentials` (lines 112–179): call the rpc; if it
replies with an error, return `'Invalid credentials'` with nothing changed;
if the returned row list is empty, return `'Invalid username or password'`
with nothing changed; otherwise build the mock user and session from the first
row, write both localStorage slots, set the Gate's user and session, and return
no error; a thrown exception is caught and returns `'Authentication failed'`
with nothing changed. `loading` is never touched here. -/
def signInWithCredentials (now : Nat) (store : StoredState) (gate : GateState)
    (rpc : RpcResult) : SignInResult :=
  match rpc with
  | .err => { store := store, gate := gate, error := some "Invalid credentials" }
  | .ok [] => { store := store, gate := gate, error := some "Invalid username or password" }
  | .ok (info :: _) =>
      let u := mkMockUser now info
      let s := mkMockSession now u
      { store := { credUser := some u, credSession := some s }
        gate := { user := some u, session := some s, loading := gate.loading }
        error := none }
  | .thrown => { store := store, gate := gate, error := some "Authentication failed" }

/-- Outcome of the `supabase.auth.signOut()` call: a reply carrying its
optional error, or a thrown exception. -/
inductive FedSignOutResult where
  | ok : Option String → FedSignOutResult
  | thrown : FedSignOutResult
deriving Repr, DecidableEq

/-- Result of one `signOut` call: storage, Gate state, returned error. -/
structure SignOutOutcome where
  store : StoredState
  gate : GateState
  error : Option String
deriving Repr, DecidableEq

/-- Embeds `signOut` (lines 197–215): remove both localStorage slots, call
`supabase.auth.signOut()`; on a reply, clear the Gate's user and session and
return the reply's error; if the call throws, the catch returns the exception
as the error without running the state-clearing lines (the slot removal has
already happened). -/
def signOut (store : StoredState) (gate : GateState)
    (fed : FedSignOutResult) : SignOutOutcome :=
  match fed with
  | .ok e =>
      { store := { credUser := none, credSession := none }
        gate := { user := none, session := none, loading := gate.loading }
        error := e }
  | .thrown =>
      { store := { credUser := none, credSession := none }
        gate := gate
        error := some "sign-out exception" }

/-- What `ProtectedRoute` renders. -/
inductive Render where
  | loadingSpinner
  | loginPage
  | protectedContent
deriving Repr, DecidableEq

/-- Embeds `ProtectedRoute`: it reads `{ user, loading }` from the Gate
(`session` is exposed but not consulted); while `loading` it renders the
spinner, else with no `user` the login page, else the protected children. -/
def ProtectedRoute (loading : Bool) (user : Option AuthUser) : Render :=
  if loading then Render.loadingSpinner
  else
    match user with
    | none => Render.loginPage
    | some _ => Render.protectedContent

/-- The spec's two error classes for the credentials login path. -/
inductive AuthErrorClass where
  | invalidCredentials
  | unavailable
deriving Repr, DecidableEq

/-- Spec-side classification of the user-facing error strings, following the
spec's words: `Unavailable` is "surfaced as a generic 'authentication failed'
message", while `InvalidCredentials` is surfaced as a rejected-login message.
So the code's `'Authentication failed'` string is the Unavailable surface and
every other login-failure message is an InvalidCredentials surface. -/
def specErrorClass (msg : String) : AuthErrorClass :=
  if msg == "Authentication failed" then AuthErrorClass.unavailable
  else AuthErrorClass.invalidCredentials

/-- A record credential verification could return, used in concrete instances. -/
def sampleInfo : VerifiedUser :=
  { user_id := "u1", username := "admin", email := "admin@dreamweave.local", role := "admin" }

/-- A concrete mock user as `signInWithCredentials` would build at time 100. -/
def sampleUser : AuthUser := mkMockUser 100 sampleInfo

/-- A concrete mock session as `signInWithCredentials` would build at time 100. -/
def sampleSession : Session := mkMockSession 100 sampleUser

/-- C1: on a fresh initialization pass, the persisted session is checked first;
when both persisted slots are present and the session's expiresAt is strictly
in the future, the Gate state is set Authenticated from the persisted records
and the federated-identity provider is not consulted on that pass. -/
theorem C1_persisted_session_first (now : Nat) (store : StoredState)
    (fed : GetSessionResult) (u : AuthUser) (s : Session)
    (hu : store.credUser = some u) (hs : store.credSession = some s)
    (hv : sessionValid now s = true) :
    getInitialSession now store fed =
      { store := store
        gate := { user := some u, session := some s, loading := false }
        federatedChecked := false } := by
  unfold getInitialSession
  rw [hu, hs]
  simp [hv]

/-- Witness for C1: a session expiring at 3700 read at time 200 authenticates
without the federated check, whatever the federated provider would have said. -/
theorem C1_persisted_session_first_witness :
    getInitialSession 200
        { credUser := some sampleUser, credSession := some sampleSession }
        GetSessionResult.err =
      { store := { credUser := some sampleUser, credSession := some sampleSession }
        gate := { user := some sampleUser, session := some sampleSession, loading := false }
        federatedChecked := false } :=
  C1_persisted_session_first 200 _ GetSessionResult.err sampleUser sampleSession
    rfl rfl (by decide)

/-- C2 counterexample: when the store call itself fails — the rpc replies with
an error result (network/config) — `signInWithCredentials` returns the string
`'Invalid credentials'`, which the spec's taxonomy classes as InvalidCredentials,
not as the distinct Unavailable surface (`'Authentication failed'`). -/
theorem C2_store_failure_not_unavailable :
    (signInWithCredentials 0 { credUser := none, credSession := none }
        { user := none, session := none, loading := false } RpcResult.err).error =
      some "Invalid credentials" ∧
    specErrorClass "Invalid credentials" = AuthErrorClass.invalidCredentials ∧
    specErrorClass "Invalid credentials" ≠ AuthErrorClass.unavailable :=
  ⟨rfl, by decide, by decide⟩

/-- C2 amended: the no-match reply (empty row list) maps to
`'Invalid username or password'` and an rpc error result maps to
`'Invalid credentials'` — both InvalidCredentials-class messages — while the
Unavailable surface `'Authentication failed'` is produced only when the store
call throws an exception; so an error-result store failure shares the
InvalidCredentials class with the no-match cause instead of being kept
distinct. -/
theorem C2_error_mapping (now : Nat) (store : StoredState) (gate : GateState) :
    (signInWithCredentials now store gate RpcResult.err).error =
      some "Invalid credentials" ∧
    (signInWithCredentials now store gate (RpcResult.ok [])).error =
      some "Invalid username or password" ∧
    (signInWithCredentials now store gate RpcResult.thrown).error =
      some "Authentication failed" ∧
    specErrorClass "Invalid credentials" = AuthErrorClass.invalidCredentials ∧
    specErrorClass "Invalid username or password" = AuthErrorClass.invalidCredentials ∧
    specErrorClass "Authentication failed" = AuthErrorClass.unavailable :=
  ⟨rfl, rfl, rfl, by decide, by decide, by decide⟩

/-- C4: a persisted session whose expiresAt equals the current time exactly
fails the strict greater-than validity check, so the pass rejects it, removes
both persisted entries, and consults the federated provider instead. -/
theorem C4_boundary_expiry (now : Nat) (store : StoredState)
    (fed : GetSessionResult) (u : AuthUser) (s : Session)
    (hu : store.credUser = some u) (hs : store.credSession = some s)
    (he : s.expires_at = some now) :
    sessionValid now s = false ∧
    (getInitialSession now store fed).store =
      { credUser := none, credSession := none } ∧
    (getInitialSession now store fed).federatedChecked = true := by
  have hv : sessionValid now s = false := by
    simp [sessionValid, he]
  refine ⟨hv, ?_, ?_⟩ <;>
    · unfold getInitialSession
      rw [hu, hs]
      simp [hv]
      cases fed <;> rfl

/-- Witness for C4: a session expiring exactly at time 3700, read at 3700, is
rejected and both slots are cleared. -/
theorem C4_boundary_expiry_witness :
    sessionValid 3700 sampleSession = false ∧
    (getInitialSession 3700
        { credUser := some sampleUser, credSession := some sampleSession }
        (GetSessionResult.ok none)).store =
      { credUser := none, credSession := none } ∧
    (getInitialSession 3700
        { credUser := some sampleUser, credSession := some sampleSession }
        (GetSessionResult.ok none)).federatedChecked = true :=
  C4_boundary_expiry 3700 _ (GetSessionResult.ok none) sampleUser sampleSession
    rfl rfl rfl

/-- C5: when both persisted slots are present but the session is not valid
(expiresAt not strictly in the future), the pass deletes both persisted
entries, falls through to the federated-provider check (`getInitialSession`
has no user-visible error output on this path — failures are only logged), and
if the federated provider reports no live session the Gate resolves to
Unauthenticated (user and session null, loading false). -/
theorem C5_expired_falls_through (now : Nat) (store : StoredState)
    (fed : GetSessionResult) (u : AuthUser) (s : Session)
    (hu : store.credUser = some u) (hs : store.credSession = some s)
    (hv : sessionValid now s = false) :
    (getInitialSession now store fed).store =
      { credUser := none, credSession := none } ∧
    (getInitialSession now store fed).federatedChecked = true ∧
    (fed = GetSessionResult.ok none →
      (getInitialSession now store fed).gate =
        { user := none, session := none, loading := false }) := by
  unfold getInitialSession
  rw [hu, hs]
  simp only [hv, Bool.false_eq_true, if_false]
  refine ⟨?_, ?_, ?_⟩
  · cases fed <;> rfl
  · cases fed <;> rfl
  · intro hfed
    subst hfed
    rfl

/-- Witness for C5: a session expired 10 seconds ago is cleared, the federated
provider is consulted, and with no live federated session the Gate is
Unauthenticated. -/
theorem C5_expired_falls_through_witness :
    (getInitialSession 3710
        { credUser := some sampleUser, credSession := some sampleSession }
        (GetSessionResult.ok none)).store =
      { credUser := none, credSession := none } ∧
    (getInitialSession 3710
        { credUser := some sampleUser, credSession := some sampleSession }
        (GetSessionResult.ok none)).federatedChecked = true ∧
    (getInitialSession 3710
        { credUser := some sampleUser, credSession := some sampleSession }
        (GetSessionResult.ok none)).gate =
      { user := none, session := none, loading := false } :=
  ⟨(C5_expired_falls_through 3710 _ (GetSessionResult.ok none) sampleUser
      sampleSession rfl rfl (by decide)).1,
   (C5_expired_falls_through 3710 _ (GetSessionResult.ok none) sampleUser
      sampleSession rfl rfl (by decide)).2.1,
   (C5_expired_falls_through 3710 _ (GetSessionResult.ok none) sampleUser
      sampleSession rfl rfl (by decide)).2.2 rfl⟩

/-- C3: for every (username, password) pair that does not match an active
credential record of the deployed table, the login path gets back an empty row
list, returns the InvalidCredentials-class message
`'Invalid username or password'`, and changes neither the persisted slots nor
the Gate state — no session is created. -/
theorem C3_no_match_atomic (now : Nat) (store : StoredState) (gate : GateState)
    (u p : String) (h : matchesActiveRecord credentialsTable u p = false) :
    (signInWithCredentials now store gate
        (RpcResult.ok (verify_credentials_simple credentialsTable u p))).error =
      some "Invalid username or password" ∧
    specErrorClass "Invalid username or password" =
      AuthErrorClass.invalidCredentials ∧
    (signInWithCredentials now store gate
        (RpcResult.ok (verify_credentials_simple credentialsTable u p))).store =
      store ∧
    (signInWithCredentials now store gate
        (RpcResult.ok (verify_credentials_simple credentialsTable u p))).gate =
      gate := by
  have hempty : verify_credentials_simple credentialsTable u p = [] := by
    by_cases hu : u = "admin"
    · subst hu
      by_cases hp : p = "Wreke2re?es?"
      · subst hp
        exact absurd h (by decide)
      · simp [verify_credentials_simple, credentialsTable, adminRecord, hp]
    · simp [verify_credentials_simple, credentialsTable, adminRecord, hu,
        Ne.symm hu]
  rw [hempty]
  exact ⟨rfl, by decide, rfl, rfl⟩

/-- Witness for C3: the pair ("admin", "wrong") matches no active record, and
signing in with it leaves storage and Gate state untouched while reporting the
rejected-login message. -/
theorem C3_no_match_atomic_witness :
    matchesActiveRecord credentialsTable "admin" "wrong" = false ∧
    ((signInWithCredentials 5 { credUser := none, credSession := none }
        { user := none, session := none, loading := false }
        (RpcResult.ok
          (verify_credentials_simple credentialsTable "admin" "wrong"))).error =
      some "Invalid username or password" ∧
    specErrorClass "Invalid username or password" =
      AuthErrorClass.invalidCredentials ∧
    (signInWithCredentials 5 { credUser := none, credSession := none }
        { user := none, session := none, loading := false }
        (RpcResult.ok
          (verify_credentials_simple credentialsTable "admin" "wrong"))).store =
      { credUser := none, credSession := none } ∧
    (signInWithCredentials 5 { credUser := none, credSession := none }
        { user := none, session := none, loading := false }
        (RpcResult.ok
          (verify_credentials_simple credentialsTable "admin" "wrong"))).gate =
      { user := none, session := none, loading := false }) :=
  ⟨by decide,
   C3_no_match_atomic 5 { credUser := none, credSession := none }
     { user := none, session := none, loading := false } "admin" "wrong"
     (by decide)⟩

/-- C6: for every verified row (whatever its identity and role), the session
built on successful sign-in has expiresAt equal to the call's instant plus
exactly 3600 seconds, and when `signInWithCredentials` returns, the Gate's
in-memory user and session already hold the new records, with no error. -/
theorem C6_fixed_one_hour_lifetime (now : Nat) (store : StoredState)
    (gate : GateState) (info : VerifiedUser) (rest : List VerifiedUser) :
    (signInWithCredentials now store gate
        (RpcResult.ok (info :: rest))).gate.session =
      some (mkMockSession now (mkMockUser now info)) ∧
    (signInWithCredentials now store gate
        (RpcResult.ok (info :: rest))).gate.user =
      some (mkMockUser now info) ∧
    (mkMockSession now (mkMockUser now info)).expires_at = some (now + 3600) ∧
    (signInWithCredentials now store gate
        (RpcResult.ok (info :: rest))).error = none :=
  ⟨rfl, rfl, rfl, rfl⟩

/-- C7: persisted-session round-trip. A successful sign-in at time t0 persists
the mock user and session; the user carries the verified row's id and role.
An initialization pass at any t1 before the expiry t0 + 3600 reads them back
and authenticates with exactly that identity without consulting the federated
provider; a pass at or after the expiry treats the persisted session as absent
(removes both entries and falls through to the federated check). -/
theorem C7_session_roundtrip (t0 t1 : Nat) (store : StoredState)
    (gate : GateState) (info : VerifiedUser) (rest : List VerifiedUser)
    (fed : GetSessionResult) :
    (mkMockUser t0 info).id = info.user_id ∧
    (mkMockUser t0 info).user_metadata.role = info.role ∧
    (t1 < t0 + 3600 →
      getInitialSession t1
          (signInWithCredentials t0 store gate
            (RpcResult.ok (info :: rest))).store fed =
        { store := { credUser := some (mkMockUser t0 info)
                     credSession := some (mkMockSession t0 (mkMockUser t0 info)) }
          gate := { user := some (mkMockUser t0 info)
                    session := some (mkMockSession t0 (mkMockUser t0 info))
                    loading := false }
          federatedChecked := false }) ∧
    (t0 + 3600 ≤ t1 →
      (getInitialSession t1
          (signInWithCredentials t0 store gate
            (RpcResult.ok (info :: rest))).store fed).store =
        { credUser := none, credSession := none } ∧
      (getInitialSession t1
          (signInWithCredentials t0 store gate
            (RpcResult.ok (info :: rest))).store fed).federatedChecked =
        true) := by
  have hstore : (signInWithCredentials t0 store gate
      (RpcResult.ok (info :: rest))).store =
        { credUser := some (mkMockUser t0 info)
          credSession := some (mkMockSession t0 (mkMockUser t0 info)) } := rfl
  refine ⟨rfl, rfl, ?_, ?_⟩
  · intro hlt
    have hv : sessionValid t1 (mkMockSession t0 (mkMockUser t0 info)) = true := by
      simp [sessionValid, mkMockSession]
      omega
    rw [hstore]
    unfold getInitialSession
    simp [hv]
  · intro hge
    have hv : sessionValid t1 (mkMockSession t0 (mkMockUser t0 info)) = false := by
      simp [sessionValid, mkMockSession]
      omega
    rw [hstore]
    unfold getInitialSession
    simp [hv]
    cases fed <;> exact ⟨rfl, rfl⟩

/-- Witness for C7: signing in at time 0, a pass at time 100 reproduces the
materialized identity; a pass at time 3600 (exactly the expiry) clears the
entries and falls through to the federated check. -/
theorem C7_session_roundtrip_witness :
    getInitialSession 100
        (signInWithCredentials 0 { credUser := none, credSession := none }
          { user := none, session := none, loading := true }
          (RpcResult.ok [sampleInfo])).store GetSessionResult.err =
      { store := { credUser := some (mkMockUser 0 sampleInfo)
                   credSession := some (mkMockSession 0 (mkMockUser 0 sampleInfo)) }
        gate := { user := some (mkMockUser 0 sampleInfo)
                  session := some (mkMockSession 0 (mkMockUser 0 sampleInfo))
                  loading := false }
        federatedChecked := false } ∧
    ((getInitialSession 3600
        (signInWithCredentials 0 { credUser := none, credSession := none }
          { user := none, session := none, loading := true }
          (RpcResult.ok [sampleInfo])).store (GetSessionResult.ok none)).store =
      { credUser := none, credSession := none } ∧
    (getInitialSession 3600
        (signInWithCredentials 0 { credUser := none, credSession := none }
          { user := none, session := none, loading := true }
          (RpcResult.ok [sampleInfo])).store
        (GetSessionResult.ok none)).federatedChecked = true) :=
  ⟨(C7_session_roundtrip 0 100 { credUser := none, credSession := none }
      { user := none, session := none, loading := true } sampleInfo []
      GetSessionResult.err).2.2.1 (by decide),
   (C7_session_roundtrip 0 3600 { credUser := none, credSession := none }
      { user := none, session := none, loading := true } sampleInfo []
      (GetSessionResult.ok none)).2.2.2 (by decide)⟩

/-- C8: sign-out from the Unauthenticated state is a no-op on the observable
state: with both Gate fields already null and the persisted slots already
empty, after sign-out the Gate's user and session are still null and storage
still holds no persisted entries, whether the federated sign-out call replies
or throws. -/
theorem C8_signout_idempotent (gate : GateState) (fed : FedSignOutResult)
    (hu : gate.user = none) (hs : gate.session = none) :
    (signOut { credUser := none, credSession := none } gate fed).gate.user =
      none ∧
    (signOut { credUser := none, credSession := none } gate fed).gate.session =
      none ∧
    (signOut { credUser := none, credSession := none } gate fed).store =
      { credUser := none, credSession := none } := by
  cases fed <;> simp [signOut, hu, hs]

/-- Witness for C8: sign-out from the concrete Unauthenticated state with a
successful federated reply leaves everything Unauthenticated and storage empty. -/
theorem C8_signout_idempotent_witness :
    (signOut { credUser := none, credSession := none }
        { user := none, session := none, loading := false }
        (FedSignOutResult.ok none)).gate.user = none ∧
    (signOut { credUser := none, credSession := none }
        { user := none, session := none, loading := false }
        (FedSignOutResult.ok none)).gate.session = none ∧
    (signOut { credUser := none, credSession := none }
        { user := none, session := none, loading := false }
        (FedSignOutResult.ok none)).store =
      { credUser := none, credSession := none } :=
  C8_signout_idempotent { user := none, session := none, loading := false }
    (FedSignOutResult.ok none) rfl rfl

/-- C9: the protected-content renderer is a total function of the exposed Gate
state: while loading it renders the spinner (whatever the user field holds),
with loading false and no user it renders the login page, and with loading
false and a user present it renders the protected children. -/
theorem C9_protected_route_total (user : Option AuthUser) (x : AuthUser) :
    ProtectedRoute true user = Render.loadingSpinner ∧
    ProtectedRoute false none = Render.loginPage ∧
    ProtectedRoute false (some x) = Render.protectedContent :=
  ⟨rfl, rfl, rfl⟩

/-- An active non-admin credential record whose stored hash verifies the
password "Wreke2re?es?", used to exhibit a matching pair that
`verify_credentials_simple` nonetheless rejects. -/
def bobRecord : CredRecord :=
  { id := "00000000-0000-0000-0000-000000000002"
    username := "bob"
    email := "bob@dreamweave.local"
    password_hash := adminPasswordHash
    role := "user"
    is_active := true }

/-- C10: `verify_credentials_simple` succeeds only for the literal pair
("admin", "Wreke2re?es?"): over any credentials table, every other pair —
including one whose password verifies against an active record's stored hash —
gets the empty result, because the stored hash is never compared; and on the
deployed table the literal pair does return the admin row. -/
theorem C10_only_literal_admin_pair (table : List CredRecord) (u p : String)
    (h : u ≠ "admin" ∨ p ≠ "Wreke2re?es?") :
    verify_credentials_simple table u p = [] ∧
    verify_credentials_simple credentialsTable "admin" "Wreke2re?es?" =
      [{ user_id := adminRecord.id, username := "admin"
         email := "admin@dreamweave.local", role := "admin" }] := by
  constructor
  · unfold verify_credentials_simple
    cases hfind : table.find? (fun c => c.username == u && c.is_active) with
    | none => rfl
    | some r =>
        have hcond : (p == "Wreke2re?es?" && u == "admin") = false := by
          rcases h with h | h
          · simp [h]
          · simp [h]
        simp [hcond]
  · decide

/-- Witness for C10: the pair ("bob", "Wreke2re?es?") matches the active `bob`
record (its stored hash verifies that password), yet the verification function
returns the empty result for it. -/
theorem C10_only_literal_admin_pair_witness :
    matchesActiveRecord [bobRecord] "bob" "Wreke2re?es?" = true ∧
    (verify_credentials_simple [bobRecord] "bob" "Wreke2re?es?" = [] ∧
    verify_credentials_simple credentialsTable "admin" "Wreke2re?es?" =
      [{ user_id := adminRecord.id, username := "admin"
         email := "admin@dreamweave.local", role := "admin" }]) :=
  ⟨by decide,
   C10_only_literal_admin_pair [bobRecord] "bob" "Wreke2re?es?"
     (Or.inl (by decide))⟩

end DreamWeave
